import Mathlib

/-!
Verification of the RF Spectrum Observatory core: spectral feature pipeline
(window → FFT → PSD → EMA smoothing → noise floor → band features → GPS
alignment) and geospatial tile aggregation (tile grid, grouped aggregation).

The Python source is embedded shallowly: float arrays become `List ℝ`
(complex IQ samples become `List ℂ`), idealized to exact real arithmetic;
mutation becomes explicit state passing; raising code returns
`Option`/`Except`.
-/

set_option autoImplicit false

namespace RFObs

/-- Embeds `common.types.IQFrame`: one block of complex baseband samples. -/
structure IQFrame where
  frame_id : ℤ
  timestamp_ns : ℤ
  center_freq_hz : ℝ
  sample_rate_sps : ℝ
  gain_db : Option ℝ
  iq : List ℂ

/-- Embeds `common.types.GPSFix`: one GPS position fix. -/
structure GPSFix where
  gps_timestamp_ns : ℤ
  lat_deg : ℝ
  lon_deg : ℝ
  alt_m : Option ℝ := none
  heading_deg : Option ℝ := none
  speed_mps : Option ℝ := none

/-- Embeds `common.types.Band`: a named absolute-frequency interval. -/
structure Band where
  name : String
  start_hz : ℝ
  end_hz : ℝ

/-- Embeds `common.types.FrameFeatures`: DSP features extracted from one IQ frame. -/
structure FrameFeatures where
  frame_id : ℤ
  timestamp_ns : ℤ
  lat_deg : Option ℝ
  lon_deg : Option ℝ
  freq_bins_hz : List ℝ
  psd_db : List ℝ
  psd_smoothed_db : List ℝ
  noise_floor_db : ℝ
  bandpower_db : List ℝ
  occupancy_pct : List ℝ
  anomaly_score : Option ℝ := none

/-- The index part of `cp.fft.fftfreq`: bin `k` of an `N`-point DFT stands for
frequency index `k` when `k < ⌈N/2⌉` and `k - N` otherwise. -/
def fftfreqIdx (N k : ℕ) : ℤ :=
  if k < (N + 1) / 2 then (k : ℤ) else (k : ℤ) - (N : ℤ)

/-- Embeds `cp.fft.fftfreq(N, d=1/fs)`: DFT bin frequencies `idx · fs / N` in Hz. -/
noncomputable def fftfreq (N : ℕ) (fs : ℝ) : List ℝ :=
  (List.range N).map (fun k => (fftfreqIdx N k : ℝ) * fs / (N : ℝ))

/-- Embeds `cp.fft.fftshift`: rotate the list so the zero-frequency bin moves to the
center (`np.roll(x, N//2)`, i.e. drop the first `⌈N/2⌉` entries to the back). -/
def fftshift {α : Type} (l : List α) : List α :=
  l.drop ((l.length + 1) / 2) ++ l.take ((l.length + 1) / 2)

/-- Embeds `dsp.fft_psd.compute_fft` (`cp.fft.fft`): the discrete Fourier transform
`X[k] = Σₙ x[n]·exp(-2πi·k·n/N)`. -/
noncomputable def compute_fft (signal : List ℂ) : List ℂ :=
  (List.range signal.length).map (fun (k : ℕ) =>
    ∑ n ∈ Finset.range signal.length,
      signal.getD n 0 *
        Complex.exp (-2 * Real.pi * Complex.I * (k : ℂ) * (n : ℂ) /
          (signal.length : ℂ)))

/-- Embeds `dsp.fft_psd.compute_psd`: power `|X[k]|²`, normalized by
`N · sample_rate · window_power_correction`, then fft-shifted together with the
bin frequencies. Returns `(freq_bins, psd_linear)`. -/
noncomputable def compute_psd (fft_result : List ℂ) (sample_rate_sps : ℝ)
    (window_power_correction : ℝ) : List ℝ × List ℝ :=
  let N := fft_result.length
  let power := fft_result.map (fun z => Complex.abs z ^ 2)
  let psd_linear := power.map
    (fun p => p / ((N : ℝ) * sample_rate_sps * window_power_correction))
  let freq_bins := fftfreq N sample_rate_sps
  (fftshift freq_bins, fftshift psd_linear)

/-- Embeds `dsp.fft_psd.linear_to_db`: `10·log10(max(linear, 10^(floor_db/10)))`. -/
noncomputable def linear_to_db (linear : List ℝ) (floor_db : ℝ := -120) : List ℝ :=
  linear.map (fun v => 10 * Real.logb 10 (max v ((10 : ℝ) ^ (floor_db / 10))))

/-- NumPy/CuPy elementwise broadcasting for a binary operation on 1-D arrays:
equal lengths act pointwise, a length-1 operand is stretched, anything else is
a broadcast error (`none`). -/
def bcast2 {α β γ : Type} (f : α → β → γ) (as : List α) (bs : List β) :
    Option (List γ) :=
  if as.length = bs.length then some (List.zipWith f as bs)
  else
    match as, bs with
    | [a], bs => some (bs.map (fun b => f a b))
    | as, [b] => some (as.map (fun a => f a b))
    | _, _ => none

/-- Embeds `dsp.fft_psd.compute_fft_psd`: window (broadcast multiply) → FFT → PSD →
dB. Returns `(freq_bins, psd_db, psd_linear)`, or `none` when the sample count
cannot broadcast against the window. -/
noncomputable def compute_fft_psd (frame : IQFrame) (window : List ℝ)
    (window_power_correction : ℝ) : Option (List ℝ × List ℝ × List ℝ) :=
  (bcast2 (fun (z : ℂ) (w : ℝ) => z * (w : ℂ)) frame.iq window).map (fun windowed =>
    let fft_result := compute_fft windowed
    let p := compute_psd fft_result frame.sample_rate_sps window_power_correction
    (p.1, linear_to_db p.2, p.2))

/-- Error taxonomy from the design: configuration errors raised at
construction, shape/broadcast errors raised per call. -/
inductive Err where
  | configError
  | shapeError
deriving DecidableEq

/-- Embeds `dsp.smoothing.EMAFilter` state: smoothing factor, nominal size, and the
internal vector (`None` until first update / after reset). -/
structure EMAFilter where
  alpha : ℝ
  size : ℕ
  state : Option (List ℝ) := none

/-- Embeds `EMAFilter.update`: first call stores a copy of the input and returns it;
later calls compute `alpha·new + (1-alpha)·state` (a CuPy elementwise add,
hence broadcast semantics) and return the new state. -/
def EMAFilter.update (f : EMAFilter) (new_value : List ℝ) :
    Option (List ℝ × EMAFilter) :=
  match f.state with
  | none => some (new_value, { f with state := some new_value })
  | some s =>
      (bcast2 (fun a b => a + b) (new_value.map (fun x => f.alpha * x))
        (s.map (fun x => (1 - f.alpha) * x))).map
        (fun st => (st, { f with state := some st }))

/-- Embeds `EMAFilter.reset`: clear the internal state. -/
def EMAFilter.reset (f : EMAFilter) : EMAFilter := { f with state := none }

/-- Modelled from the spec: the cuSignal periodic (`sym=False`) Hann window
used by `dsp.windows.get_window` (the cuSignal library itself is not part of
the repository): `0.5 - 0.5·cos(2πk/N)`. -/
noncomputable def hannWindow (size : ℕ) : List ℝ :=
  (List.range size).map (fun (k : ℕ) =>
    0.5 - 0.5 * Real.cos (2 * Real.pi * k / size))

/-- Modelled from the spec: the cuSignal periodic Hamming window,
`0.54 - 0.46·cos(2πk/N)`. -/
noncomputable def hammingWindow (size : ℕ) : List ℝ :=
  (List.range size).map (fun (k : ℕ) =>
    0.54 - 0.46 * Real.cos (2 * Real.pi * k / size))

/-- Modelled from the spec: the cuSignal periodic Blackman window,
`0.42 - 0.5·cos(2πk/N) + 0.08·cos(4πk/N)`. -/
noncomputable def blackmanWindow (size : ℕ) : List ℝ :=
  (List.range size).map (fun (k : ℕ) =>
    0.42 - 0.5 * Real.cos (2 * Real.pi * k / size)
      + 0.08 * Real.cos (4 * Real.pi * k / size))

/-- Embeds `dsp.windows.get_window`: dispatch on the window-type string, raising a
configuration error (`ValueError` in the source) for unknown types. -/
noncomputable def get_window (window_type : String) (size : ℕ) :
    Except Err (List ℝ) :=
  if window_type = "hann" then .ok (hannWindow size)
  else if window_type = "hamming" then .ok (hammingWindow size)
  else if window_type = "blackman" then .ok (blackmanWindow size)
  else .error .configError

/-- Modelled from the spec: `cp.percentile` (a GPU library call, not part of
the repository) with the default linear-interpolation method: sort the data,
take rank `q/100·(n-1)`, and interpolate between the two nearest entries. -/
noncomputable def cupyPercentile (xs : List ℝ) (q : ℝ) : ℝ :=
  let s := xs.mergeSort (fun a b => decide (a ≤ b))
  let h := q / 100 * ((s.length : ℝ) - 1)
  s.getD (⌊h⌋).toNat 0 + (h - ⌊h⌋) * (s.getD (⌈h⌉).toNat 0 - s.getD (⌊h⌋).toNat 0)

/-- Embeds `dsp.features.estimate_noise_floor`: the configured percentile of the
PSD-dB vector. -/
noncomputable def estimate_noise_floor (psd_db : List ℝ)
    (percentile : ℝ := 10) : ℝ :=
  cupyPercentile psd_db percentile

/-- Embeds `dsp.features.compute_bandpower`: integrate the linear PSD over the bins
whose baseband frequency falls inside the band, times the bin width, in dB
with a `1e-12` clamp. -/
noncomputable def compute_bandpower (freq_bins psd_linear : List ℝ)
    (band : Band) (center_freq_hz : ℝ) : ℝ :=
  let band_start_baseband := band.start_hz - center_freq_hz
  let band_end_baseband := band.end_hz - center_freq_hz
  let selected := (freq_bins.zip psd_linear).filter
    (fun p => decide (band_start_baseband ≤ p.1) &&
      decide (p.1 ≤ band_end_baseband))
  let bin_width :=
    if 1 < freq_bins.length then freq_bins.getD 1 0 - freq_bins.getD 0 0 else 1
  let power_linear := (selected.map Prod.snd).sum * bin_width
  10 * Real.logb 10 (max power_linear 1e-12)

/-- Embeds `dsp.features.compute_occupancy`: the percentage of in-band dB PSD bins
strictly above `noise_floor_db + threshold_db`; zero when no bin falls in the
band. -/
noncomputable def compute_occupancy (freq_bins psd_db : List ℝ) (band : Band)
    (center_freq_hz noise_floor_db : ℝ) (threshold_db : ℝ := 6) : ℝ :=
  let band_start_baseband := band.start_hz - center_freq_hz
  let band_end_baseband := band.end_hz - center_freq_hz
  let psd_in_band := ((freq_bins.zip psd_db).filter
    (fun p => decide (band_start_baseband ≤ p.1) &&
      decide (p.1 ≤ band_end_baseband))).map Prod.snd
  if psd_in_band.length = 0 then 0
  else ((psd_in_band.countP
    (fun v => decide (noise_floor_db + threshold_db < v)) : ℝ) /
      (psd_in_band.length : ℝ)) * 100

/-- The in-band selection used by `compute_occupancy`: dB PSD values whose
baseband frequency lies inside the band (inclusive on both edges). -/
noncomputable def inBandPsd (freq_bins psd_db : List ℝ) (band : Band)
    (center_freq_hz : ℝ) : List ℝ :=
  ((freq_bins.zip psd_db).filter
    (fun p => decide (band.start_hz - center_freq_hz ≤ p.1) &&
      decide (p.1 ≤ band.end_hz - center_freq_hz))).map Prod.snd

/-- Embeds `dsp.features.extract_band_features`: bandpower and occupancy per
configured band, in band order. -/
noncomputable def extract_band_features (freq_bins psd_db psd_linear : List ℝ)
    (bands : List Band) (center_freq_hz noise_floor_db : ℝ) :
    List ℝ × List ℝ :=
  (bands.map (fun b => compute_bandpower freq_bins psd_linear b center_freq_hz),
   bands.map (fun b =>
     compute_occupancy freq_bins psd_db b center_freq_hz noise_floor_db))

/-- Embeds `dsp.pipeline.DSPPipeline` state: static configuration plus the mutable
EMA filter and GPS fix buffer. -/
structure DSPPipeline where
  fft_size : ℕ
  window_type : String
  smoothing_factor : ℝ
  noise_floor_percentile : ℝ
  bands : List Band
  window : List ℝ
  window_power_correction : ℝ
  ema_filter : EMAFilter
  gps_fixes : List GPSFix

/-- Embeds `DSPPipeline.__init__`: build the window (may raise for an unknown window
type), cache its power correction, and start with a fresh EMA filter and an
empty GPS buffer. No validation of `smoothing_factor` happens here. -/
noncomputable def mkDSPPipeline (fft_size : ℕ) (window_type : String)
    (smoothing_factor noise_floor_percentile : ℝ) (bands : List Band) :
    Except Err DSPPipeline :=
  match get_window window_type fft_size with
  | .error e => .error e
  | .ok w => .ok {
      fft_size := fft_size
      window_type := window_type
      smoothing_factor := smoothing_factor
      noise_floor_percentile := noise_floor_percentile
      bands := bands
      window := w
      window_power_correction := (w.map (fun x => x ^ 2)).sum
      ema_filter := { alpha := smoothing_factor, size := fft_size }
      gps_fixes := [] }

/-- Embeds `DSPPipeline.add_gps_fix`: append the fix and keep only the last 100. -/
def DSPPipeline.add_gps_fix (p : DSPPipeline) (fix : GPSFix) : DSPPipeline :=
  let l := p.gps_fixes ++ [fix]
  { p with gps_fixes := if 100 < l.length then l.drop (l.length - 100) else l }

/-- Embeds `DSPPipeline.process_frame`: FFT/PSD → EMA smoothing → noise floor → band
features → attach the most recent GPS fix (if any). A broadcast failure
surfaces as a per-call shape error, leaving the caller's state untouched. -/
noncomputable def DSPPipeline.process_frame (p : DSPPipeline) (frame : IQFrame) :
    Except Err (FrameFeatures × DSPPipeline) :=
  match compute_fft_psd frame p.window p.window_power_correction with
  | none => .error .shapeError
  | some (freq_bins, psd_db, psd_linear) =>
    match p.ema_filter.update psd_db with
    | none => .error .shapeError
    | some (psd_smoothed_db, ema') =>
      let noise_floor_db :=
        estimate_noise_floor psd_smoothed_db p.noise_floor_percentile
      let bf := extract_band_features freq_bins psd_db psd_linear p.bands
        frame.center_freq_hz noise_floor_db
      .ok ({ frame_id := frame.frame_id
             timestamp_ns := frame.timestamp_ns
             lat_deg := (p.gps_fixes.getLast?).map GPSFix.lat_deg
             lon_deg := (p.gps_fixes.getLast?).map GPSFix.lon_deg
             freq_bins_hz := freq_bins
             psd_db := psd_db
             psd_smoothed_db := psd_smoothed_db
             noise_floor_db := noise_floor_db
             bandpower_db := bf.1
             occupancy_pct := bf.2 },
           { p with ema_filter := ema' })

/-- Embeds `DSPPipeline.reset`: clear the EMA filter and the GPS buffer. -/
def DSPPipeline.reset (p : DSPPipeline) : DSPPipeline :=
  { p with ema_filter := p.ema_filter.reset, gps_fixes := [] }

/-- Embeds `common.config.Config.validate`: the constraints checked at configuration
time (power-of-two FFT size, known window type, smoothing factor in (0,1],
positive tile size, positive update rate). -/
noncomputable def configValidate (fft_size : ℕ) (window_type : String)
    (smoothing_factor tile_size_meters update_rate_hz : ℝ) : Except Err Unit :=
  if fft_size &&& (fft_size - 1) ≠ 0 then .error .configError
  else if ¬ (window_type = "hann" ∨ window_type = "hamming" ∨
      window_type = "blackman") then .error .configError
  else if ¬ (0 < smoothing_factor ∧ smoothing_factor ≤ 1) then
    .error .configError
  else if tile_size_meters ≤ 0 then .error .configError
  else if update_rate_hz ≤ 0 then .error .configError
  else .ok ()

/-- A concrete two-bin pipeline, exactly what `DSPPipeline.__init__` builds
for `fft_size=2, window_type="hann", alpha=1, percentile=0, bands=[]`. -/
noncomputable def pip2 : DSPPipeline :=
  { fft_size := 2
    window_type := "hann"
    smoothing_factor := 1
    noise_floor_percentile := 0
    bands := []
    window := hannWindow 2
    window_power_correction := ((hannWindow 2).map (fun x => x ^ 2)).sum
    ema_filter := { alpha := 1, size := 2 }
    gps_fixes := [] }

/-- Embeds `geo.tiling.Tile`: one grid cell with its indices and bounds. -/
structure Tile where
  tile_id : String
  tile_x : ℤ
  tile_y : ℤ
  lat_min : ℝ
  lat_max : ℝ
  lon_min : ℝ
  lon_max : ℝ

/-- The f-string `f"tile_x{ix}_y{iy}"` used for tile ids. -/
def tileIdStr (ix iy : ℤ) : String :=
  "tile_x" ++ toString ix ++ "_y" ++ toString iy

/-- Python `int(x)` on a float: truncation toward zero. -/
noncomputable def pyInt (x : ℝ) : ℤ := if 0 ≤ x then ⌊x⌋ else ⌈x⌉

/-- Embeds `geo.tiling.TileGrid` after construction: configuration and derived
fields, plus the eagerly generated tile list. -/
structure TileGrid where
  center_lat : ℝ
  center_lon : ℝ
  tile_size_meters : ℝ
  grid_extent_meters : ℝ
  lat_deg_per_m : ℝ
  lon_deg_per_m : ℝ
  lat_min : ℝ
  lat_max : ℝ
  lon_min : ℝ
  lon_max : ℝ
  tile_size_lat : ℝ
  tile_size_lon : ℝ
  num_tiles_x : ℤ
  num_tiles_y : ℤ
  tiles : List Tile

/-- Embeds `TileGrid._generate_tiles`: all tiles for `ix ∈ range nx`, `iy ∈ range ny`
with bounds advanced from the grid minima in tile-size steps. -/
noncomputable def generateTiles (lat_min lon_min tile_size_lat tile_size_lon : ℝ)
    (nx ny : ℕ) : List Tile :=
  (List.range nx).flatMap (fun (ix : ℕ) => (List.range ny).map (fun (iy : ℕ) =>
    { tile_id := tileIdStr ix iy
      tile_x := (ix : ℤ)
      tile_y := (iy : ℤ)
      lat_min := lat_min + (iy : ℝ) * tile_size_lat
      lat_max := lat_min + (iy : ℝ) * tile_size_lat + tile_size_lat
      lon_min := lon_min + (ix : ℝ) * tile_size_lon
      lon_max := lon_min + (ix : ℝ) * tile_size_lon + tile_size_lon }))

/-- Embeds `TileGrid.__init__`: meters→degrees with 1° lat ≈ 111000 m and
1° lon ≈ 88000·cos(center_lat) m; bounds = center ± extent/2; tile count per
axis = `ceil(extent / tile_size)`; tiles generated eagerly. -/
noncomputable def mkTileGrid (center_lat center_lon tile_size_meters
    grid_extent_meters : ℝ) : TileGrid :=
  let lat_deg_per_m : ℝ := 1 / 111000
  let lon_deg_per_m : ℝ :=
    1 / (88000 * Real.cos (center_lat * Real.pi / 180))
  let half_extent_lat := (grid_extent_meters / 2) * lat_deg_per_m
  let half_extent_lon := (grid_extent_meters / 2) * lon_deg_per_m
  let tile_size_lat := tile_size_meters * lat_deg_per_m
  let tile_size_lon := tile_size_meters * lon_deg_per_m
  let num_tiles : ℤ := ⌈grid_extent_meters / tile_size_meters⌉
  { center_lat := center_lat
    center_lon := center_lon
    tile_size_meters := tile_size_meters
    grid_extent_meters := grid_extent_meters
    lat_deg_per_m := lat_deg_per_m
    lon_deg_per_m := lon_deg_per_m
    lat_min := center_lat - half_extent_lat
    lat_max := center_lat + half_extent_lat
    lon_min := center_lon - half_extent_lon
    lon_max := center_lon + half_extent_lon
    tile_size_lat := tile_size_lat
    tile_size_lon := tile_size_lon
    num_tiles_x := num_tiles
    num_tiles_y := num_tiles
    tiles := generateTiles (center_lat - half_extent_lat)
      (center_lon - half_extent_lon) tile_size_lat tile_size_lon
      num_tiles.toNat num_tiles.toNat }

/-- Embeds `TileGrid.get_tile`: out-of-bounds sentinel, else linear interpolation to
integer indices, clamped into `[0, n-1]` per axis. -/
noncomputable def TileGrid.get_tile (g : TileGrid) (lat lon : ℝ) :
    ℤ × ℤ × String :=
  if ¬ (g.lat_min ≤ lat ∧ lat ≤ g.lat_max ∧
      g.lon_min ≤ lon ∧ lon ≤ g.lon_max) then
    (-1, -1, "out_of_bounds")
  else
    let ix := max 0 (min (pyInt ((lon - g.lon_min) / g.tile_size_lon))
      (g.num_tiles_x - 1))
    let iy := max 0 (min (pyInt ((lat - g.lat_min) / g.tile_size_lat))
      (g.num_tiles_y - 1))
    (ix, iy, tileIdStr ix iy)

/-- One flattened buffer row of `TileAggregator.add_frame`: frame metadata,
tile tag, and the band features zipped pairwise (bandpower, occupancy). -/
structure AggRow where
  frame_id : ℤ
  timestamp_ns : ℤ
  lat_deg : ℝ
  lon_deg : ℝ
  tile_id : String
  tile_x : ℤ
  tile_y : ℤ
  noise_floor_db : ℝ
  band_cols : List (ℝ × ℝ)
  anomaly_score : Option ℝ

/-- Embeds `common.types.TileMetrics`: aggregated per-tile summary. -/
structure TileMetrics where
  tile_id : String
  tile_x : ℤ
  tile_y : ℤ
  lat_min : ℝ
  lat_max : ℝ
  lon_min : ℝ
  lon_max : ℝ
  frame_count : ℕ
  timestamp_min_ns : ℤ
  timestamp_max_ns : ℤ
  bandpower_mean_db : List ℝ
  bandpower_max_db : List ℝ
  occupancy_mean_pct : List ℝ
  anomaly_score_max : Option ℝ

/-- Embeds `geo.aggregate.TileAggregator` state. -/
structure TileAggregator where
  tile_grid : TileGrid
  aggregate_window_frames : ℕ
  num_bands : ℕ
  frame_buffer : List AggRow

/-- Embeds `TileAggregator.add_frame`: skip records without GPS, skip out-of-bounds
locations, otherwise append a flattened row (band lists zipped). -/
noncomputable def TileAggregator.add_frame (agg : TileAggregator)
    (features : FrameFeatures) : TileAggregator :=
  match features.lat_deg, features.lon_deg with
  | some lat, some lon =>
    let r := agg.tile_grid.get_tile lat lon
    if r.2.2 = "out_of_bounds" then agg
    else
      { agg with frame_buffer := agg.frame_buffer ++ [{
          frame_id := features.frame_id
          timestamp_ns := features.timestamp_ns
          lat_deg := lat
          lon_deg := lon
          tile_id := r.2.2
          tile_x := r.1
          tile_y := r.2.1
          noise_floor_db := features.noise_floor_db
          band_cols := features.bandpower_db.zip features.occupancy_pct
          anomaly_score := features.anomaly_score }] }
  | _, _ => agg

/-- Embeds `TileAggregator.should_aggregate`: buffer has reached the window size. -/
def TileAggregator.should_aggregate (agg : TileAggregator) : Bool :=
  decide (agg.aggregate_window_frames ≤ agg.frame_buffer.length)

/-- Arithmetic mean, with the empty case mapped to 0 (the cuDF null/default
path of the source, which only arises for malformed buffers). -/
noncomputable def listMean (l : List ℝ) : ℝ := l.sum / l.length

/-- Embeds `TileAggregator.aggregate`: empty buffer returns `[]`; a band column
referenced by `num_bands` but present in no buffered row is a `KeyError` in
the cuDF `groupby.agg` (a shape error here); otherwise group rows by tile id
(first-occurrence order), aggregate count/min/max/mean/max per group, skip
unknown tile ids, and clear the buffer. -/
noncomputable def TileAggregator.aggregate (agg : TileAggregator) :
    Except Err (List TileMetrics × TileAggregator) :=
  if agg.frame_buffer.length = 0 then .ok ([], agg)
  else if ∃ i < agg.num_bands,
      ∀ r ∈ agg.frame_buffer, r.band_cols.length ≤ i then
    .error .shapeError
  else
    .ok (((agg.frame_buffer.map (fun r => r.tile_id)).dedup).filterMap
      (fun tid =>
        match agg.tile_grid.tiles.find? (fun t => t.tile_id == tid) with
        | none => none
        | some tile =>
          let grp := agg.frame_buffer.filter (fun r => r.tile_id == tid)
          some {
            tile_id := tid
            tile_x := ((grp.map (fun r => r.tile_x)).headI)
            tile_y := ((grp.map (fun r => r.tile_y)).headI)
            lat_min := tile.lat_min
            lat_max := tile.lat_max
            lon_min := tile.lon_min
            lon_max := tile.lon_max
            frame_count := grp.length
            timestamp_min_ns := ((grp.map (fun r => r.timestamp_ns)).min?).getD 0
            timestamp_max_ns := ((grp.map (fun r => r.timestamp_ns)).max?).getD 0
            bandpower_mean_db := (List.range agg.num_bands).map (fun i =>
              listMean (grp.filterMap (fun r => (r.band_cols.get? i).map Prod.fst)))
            bandpower_max_db := (List.range agg.num_bands).map (fun i =>
              (((grp.filterMap (fun r =>
                (r.band_cols.get? i).map Prod.fst)).max?).getD 0))
            occupancy_mean_pct := (List.range agg.num_bands).map (fun i =>
              listMean (grp.filterMap (fun r => (r.band_cols.get? i).map Prod.snd)))
            anomaly_score_max := (grp.filterMap (fun r => r.anomaly_score)).max? }),
      { agg with frame_buffer := [] })

/-- Embeds `TileAggregator.flush`: identical to `aggregate`. -/
noncomputable def TileAggregator.flush (agg : TileAggregator) :
    Except Err (List TileMetrics × TileAggregator) :=
  agg.aggregate

/-- A one-tile grid: 100 m tiles over a 100 m extent at the origin. -/
noncomputable def gridOne : TileGrid := mkTileGrid 0 0 100 100

/-- An aggregator over `gridOne` configured for a single band. -/
noncomputable def aggOne : TileAggregator := ⟨gridOne, 5, 1, []⟩

/-- A FeatureRecord carrying two bands (one more than `aggOne` expects). -/
noncomputable def ftrTwoBands : FrameFeatures :=
  ⟨7, 0, some 0, some 0, [], [], [], -100, [-50, -60], [10, 20], none⟩

/-- The buffer row `add_frame` produces for `ftrTwoBands`. -/
noncomputable def rowTwoBands : AggRow :=
  ⟨7, 0, 0, 0, tileIdStr 0 0, 0, 0, -100, [(-50, 10), (-60, 20)], none⟩

@[simp]
lemma length_fftshift {α : Type} (l : List α) : (fftshift l).length = l.length := by
  simp [fftshift]
  omega

@[simp]
lemma length_fftfreq (N : ℕ) (fs : ℝ) : (fftfreq N fs).length = N := by
  simp [fftfreq]

@[simp]
lemma length_compute_fft (signal : List ℂ) :
    (compute_fft signal).length = signal.length := by
  unfold compute_fft
  rw [List.length_map, List.length_range]

lemma fftfreq_getElem (N : ℕ) (fs : ℝ) (j : ℕ) (hj : j < (fftfreq N fs).length) :
    (fftfreq N fs)[j] = (fftfreqIdx N j : ℝ) * fs / N := by
  simp only [fftfreq, List.getElem_map, List.getElem_range]

lemma fftshift_getD {α : Type} (d : α) (l : List α) (i : ℕ) (hi : i < l.length) :
    (fftshift l).getD i d =
      if i < l.length - (l.length + 1) / 2 then
        l.getD ((l.length + 1) / 2 + i) d
      else
        l.getD (i - (l.length - (l.length + 1) / 2)) d := by
  unfold fftshift
  by_cases h : i < l.length - (l.length + 1) / 2
  · rw [if_pos h]
    rw [List.getD_eq_getElem _ _ (by simp; omega),
      List.getD_eq_getElem _ _ (by omega)]
    rw [List.getElem_append_left (by simp; omega), List.getElem_drop]
  · rw [if_neg h]
    rw [List.getD_eq_getElem _ _ (by simp; omega),
      List.getD_eq_getElem _ _ (by omega)]
    rw [List.getElem_append_right (by simp; omega)]
    simp only [List.length_drop]
    rw [List.getElem_take]

lemma fftshift_fftfreq_getD (N : ℕ) (fs : ℝ) (i : ℕ) (hi : i < N) :
    (fftshift (fftfreq N fs)).getD i 0 = (((i : ℤ) - (N : ℤ) / 2 : ℤ) : ℝ) * fs / N := by
  rw [fftshift_getD 0 _ i (by simp [hi])]
  simp only [length_fftfreq]
  have hval : ∀ j : ℕ, j < N →
      (fftfreq N fs).getD j 0 = (fftfreqIdx N j : ℝ) * fs / N := by
    intro j hj
    rw [List.getD_eq_getElem _ _ (by simp [hj])]
    exact fftfreq_getElem N fs j (by simp [hj])
  by_cases h : i < N - (N + 1) / 2
  · rw [if_pos h, hval _ (by omega)]
    have hidx : fftfreqIdx N ((N + 1) / 2 + i) = (i : ℤ) - (N : ℤ) / 2 := by
      unfold fftfreqIdx
      rw [if_neg (by omega)]
      omega
    rw [hidx]
  · rw [if_neg h, hval _ (by omega)]
    have hidx : fftfreqIdx N (i - (N - (N + 1) / 2)) = (i : ℤ) - (N : ℤ) / 2 := by
      unfold fftfreqIdx
      rw [if_pos (by omega)]
      omega
    rw [hidx]

lemma chain'_fftshift_fftfreq (N : ℕ) (fs : ℝ) (hfs : 0 ≤ fs) :
    List.Chain' (· ≤ ·) (fftshift (fftfreq N fs)) := by
  have hlen : (fftshift (fftfreq N fs)).length = N := by simp
  have hg : ∀ (j : ℕ) (hj : j < (fftshift (fftfreq N fs)).length),
      (fftshift (fftfreq N fs)).get ⟨j, hj⟩ =
        (((j : ℤ) - (N : ℤ) / 2 : ℤ) : ℝ) * fs / N := by
    intro j hj
    rw [List.get_eq_getElem, ← List.getD_eq_getElem _ 0 hj]
    exact fftshift_fftfreq_getD N fs j (by omega)
  rw [List.chain'_iff_get]
  intro i h
  rw [hg, hg]
  have hN : (0:ℝ) < N := by
    have : i < N - 1 := by omega
    have : 2 ≤ N := by omega
    positivity
  have hstepZ : ((i : ℤ) - (N : ℤ) / 2) ≤ (((i + 1 : ℕ) : ℤ) - (N : ℤ) / 2) := by
    push_cast
    omega
  have hstep : ((((i : ℤ) - (N : ℤ) / 2 : ℤ)) : ℝ) ≤
      ((((i + 1 : ℕ) : ℤ) - (N : ℤ) / 2 : ℤ) : ℝ) := Int.cast_le.mpr hstepZ
  have := mul_le_mul_of_nonneg_right hstep hfs
  exact div_le_div_of_nonneg_right this hN.le

lemma linear_to_db_mem_le (floorDb : ℝ) (lin : List ℝ) :
    ∀ v ∈ linear_to_db lin floorDb, floorDb ≤ v := by
  intro v hv
  unfold linear_to_db at hv
  obtain ⟨x, -, rfl⟩ := List.mem_map.mp hv
  have hb : (1:ℝ) < 10 := by norm_num
  have hpow : (0:ℝ) < (10:ℝ) ^ (floorDb / 10) :=
    Real.rpow_pos_of_pos (by norm_num) _
  have h1 : Real.logb 10 ((10:ℝ) ^ (floorDb / 10)) ≤
      Real.logb 10 (max x ((10:ℝ) ^ (floorDb / 10))) :=
    Real.logb_le_logb_of_le hb hpow (le_max_right _ _)
  have h2 : Real.logb 10 ((10:ℝ) ^ (floorDb / 10)) = floorDb / 10 :=
    Real.logb_rpow (by norm_num) (by norm_num)
  linarith

lemma compute_psd_fst (fft_result : List ℂ) (fs corr : ℝ) :
    (compute_psd fft_result fs corr).1 = fftshift (fftfreq fft_result.length fs) := rfl

lemma compute_psd_snd (fft_result : List ℂ) (fs corr : ℝ) :
    (compute_psd fft_result fs corr).2 =
      fftshift ((fft_result.map (fun z => Complex.abs z ^ 2)).map
        (fun p => p / ((fft_result.length : ℝ) * fs * corr))) := rfl

/-- C1: for frames whose sample count matches the window length (the
configured FFT size), the spectral estimation step `compute_fft_psd` returns
frequency bins, dB PSD, and linear PSD all of the frame's length; the
fft-shifted frequency bins are monotonically non-decreasing; and every dB PSD
value is at least the -120 dB floor enforced by `linear_to_db`. -/
theorem spectral_estimation_output_spec (frame : IQFrame) (window : List ℝ)
    (corr : ℝ) (hlen : frame.iq.length = window.length)
    (hfs : 0 ≤ frame.sample_rate_sps) :
    ∃ bins db lin,
      compute_fft_psd frame window corr = some (bins, db, lin) ∧
      bins.length = frame.iq.length ∧ db.length = frame.iq.length ∧
      lin.length = frame.iq.length ∧
      List.Chain' (· ≤ ·) bins ∧
      ∀ v ∈ db, -120 ≤ v := by
  unfold compute_fft_psd bcast2
  rw [if_pos hlen]
  simp only [Option.map_some]
  have hwl : (List.zipWith (fun (z : ℂ) (w : ℝ) => z * (w : ℂ))
      frame.iq window).length = frame.iq.length := by
    rw [List.length_zipWith, hlen, min_self]
  refine ⟨_, _, _, rfl, ?_, ?_, ?_, ?_, ?_⟩
  · rw [compute_psd_fst]
    simp [hwl]
  · unfold linear_to_db
    rw [List.length_map, compute_psd_snd]
    simp [hwl]
  · rw [compute_psd_snd]
    simp [hwl]
  · rw [compute_psd_fst]
    exact chain'_fftshift_fftfreq _ _ hfs
  · exact linear_to_db_mem_le (-120) _

/-- Witness for C1 at a one-sample zero frame with a trivial window. -/
theorem spectral_estimation_output_spec_witness :
    (([(0:ℂ)]).length = ([(1:ℝ)]).length ∧ (0:ℝ) ≤ 1) ∧
    (∃ bins db lin,
      compute_fft_psd ⟨0, 0, 0, 1, none, [0]⟩ [1] 1 = some (bins, db, lin) ∧
      bins.length = ([(0:ℂ)]).length ∧ db.length = ([(0:ℂ)]).length ∧
      lin.length = ([(0:ℂ)]).length ∧
      List.Chain' (· ≤ ·) bins ∧
      ∀ v ∈ db, -120 ≤ v) :=
  ⟨⟨rfl, zero_le_one⟩,
    spectral_estimation_output_spec ⟨0, 0, 0, 1, none, [0]⟩ [1] 1 rfl zero_le_one⟩

lemma compute_occupancy_eq (freq_bins psd_db : List ℝ) (band : Band)
    (cf nf t : ℝ) :
    compute_occupancy freq_bins psd_db band cf nf t =
      if (inBandPsd freq_bins psd_db band cf).length = 0 then 0
      else ((inBandPsd freq_bins psd_db band cf).countP
        (fun v => decide (nf + t < v)) : ℝ) /
          ((inBandPsd freq_bins psd_db band cf).length : ℝ) * 100 := rfl

lemma add_gps_fix_getLast (p : DSPPipeline) (fix : GPSFix) :
    (p.add_gps_fix fix).gps_fixes.getLast? = some fix := by
  unfold DSPPipeline.add_gps_fix
  simp only
  by_cases h : 100 < (p.gps_fixes ++ [fix]).length
  · rw [if_pos h]
    have hk : (p.gps_fixes ++ [fix]).length - 100 ≤ p.gps_fixes.length := by
      simp only [List.length_append, List.length_cons, List.length_nil] at h ⊢
      omega
    rw [List.drop_append_of_le_length hk]
    exact List.getLast?_concat _
  · rw [if_neg h]
    exact List.getLast?_concat _

/-- C2: each processed frame carries the latitude/longitude of the most
recently added GPS fix (the last element of the pipeline's fix buffer),
independent of any timestamp comparison, and carries `none` when the buffer is
empty; `add_gps_fix` always leaves the new fix as the most recent one, and
`reset` empties the buffer. -/
theorem gps_attachment_spec (p : DSPPipeline) (frame : IQFrame) (fix : GPSFix) :
    ((p.add_gps_fix fix).gps_fixes.getLast? = some fix) ∧
    (p.reset.gps_fixes = []) ∧
    ((p.process_frame frame).map (fun r => (r.1.lat_deg, r.1.lon_deg)) =
      (p.process_frame frame).map (fun _ =>
        ((p.gps_fixes.getLast?).map GPSFix.lat_deg,
         (p.gps_fixes.getLast?).map GPSFix.lon_deg))) := by
  refine ⟨add_gps_fix_getLast p fix, rfl, ?_⟩
  cases hc : compute_fft_psd frame p.window p.window_power_correction with
  | none =>
    simp only [DSPPipeline.process_frame, hc]
    rfl
  | some v =>
    obtain ⟨bins, db, lin⟩ := v
    cases he : p.ema_filter.update db with
    | none =>
      simp only [DSPPipeline.process_frame, hc, he]
      rfl
    | some w =>
      obtain ⟨sm, ema'⟩ := w
      simp only [DSPPipeline.process_frame, hc, he]
      rfl

lemma zipWith_add_replicate_zero (x : List ℝ) (n : ℕ) (h : x.length ≤ n) :
    List.zipWith (fun a b => a + b) x (List.replicate n (0:ℝ)) = x := by
  induction x generalizing n with
  | nil => simp
  | cons hd tl ih =>
    cases n with
    | zero => simp at h
    | succ m => simp [List.replicate_succ, ih m (by simpa using h)]

/-- C9: with `alpha = 1` the EMA filter returns its input unchanged on every
call; on the first call after construction or after `reset`, the output equals
the input and the stored state is that same vector (stored by value in the
embedding). -/
theorem ema_identity_spec (f : EMAFilter) (x s : List ℝ) :
    ((f.reset).update x = some (x, { f.reset with state := some x })) ∧
    (f.state = none → f.update x = some (x, { f with state := some x })) ∧
    (f.alpha = 1 → f.state = some s → s.length = x.length →
      (f.update x).map Prod.fst = some x) := by
  have update_none : ∀ (g : EMAFilter), g.state = none →
      g.update x = some (x, { g with state := some x }) := by
    intro g h
    unfold EMAFilter.update
    rw [h]
  have update_some : ∀ (g : EMAFilter), g.state = some s →
      g.update x = (bcast2 (fun a b => a + b) (x.map (fun v => g.alpha * v))
        (s.map (fun v => (1 - g.alpha) * v))).map
          (fun st => (st, { g with state := some st })) := by
    intro g h
    unfold EMAFilter.update
    rw [h]
  refine ⟨update_none f.reset rfl, update_none f, ?_⟩
  intro ha hs hl
  rw [update_some f hs, ha]
  unfold bcast2
  rw [if_pos (by simp [hl])]
  simp [zipWith_add_replicate_zero x s.length (by omega)]

/-- Witness for C9: a filter with `alpha = 1` and a live state vector returns
the new input unchanged. -/
theorem ema_identity_spec_witness :
    ((⟨1, 2, some [5, 7]⟩ : EMAFilter).alpha = 1 ∧
     (⟨1, 2, some [5, 7]⟩ : EMAFilter).state = some [5, 7] ∧
     ([5, 7] : List ℝ).length = ([2, 3] : List ℝ).length) ∧
    ((⟨1, 2, some [5, 7]⟩ : EMAFilter).update [2, 3]).map Prod.fst =
      some [2, 3] :=
  ⟨⟨rfl, rfl, rfl⟩,
    (ema_identity_spec ⟨1, 2, some [5, 7]⟩ [2, 3] [5, 7]).2.2 rfl rfl rfl⟩

lemma two_not_in_unit_interval : ¬ ((0:ℝ) < 2 ∧ (2:ℝ) ≤ 1) := by norm_num

/-- C6 counterexample: constructing the pipeline with EMA alpha = 2 (outside
(0,1]) and a valid window type succeeds; `EMAFilter.__init__` stores the alpha
without any validation. -/
theorem alpha_validation_cex :
    ¬ ((0:ℝ) < 2 ∧ (2:ℝ) ≤ 1) ∧
    ∃ p, mkDSPPipeline 4 "hann" 2 10 [] = .ok p ∧ p.ema_filter.alpha = 2 :=
  ⟨two_not_in_unit_interval, ⟨_, rfl, rfl⟩⟩

/-- C6 (amended): an unknown window type does fail pipeline construction with
a configuration error, but an EMA alpha outside (0,1] is not rejected by the
smoother or pipeline constructor — it is only rejected by `Config.validate`
(the configuration layer); `EMAFilter` construction itself is total. -/
theorem construction_validation_spec (n : ℕ) (wt : String) (a pct : ℝ)
    (bands : List Band) :
    (wt ≠ "hann" → wt ≠ "hamming" → wt ≠ "blackman" →
      mkDSPPipeline n wt a pct bands = .error .configError) ∧
    (¬ (0 < a ∧ a ≤ 1) → configValidate 4 "hann" a 100 1 = .error .configError) ∧
    (∀ x : ℝ, ({ alpha := x, size := n } : EMAFilter).alpha = x) := by
  refine ⟨?_, ?_, fun _ => rfl⟩
  · intro h1 h2 h3
    unfold mkDSPPipeline get_window
    rw [if_neg h1, if_neg h2, if_neg h3]
  · intro ha
    unfold configValidate
    rw [if_neg (by decide), if_neg (by simp), if_pos ha]

/-- Witness for the amended C6 at window type "boxcar" and alpha = 2. -/
theorem construction_validation_spec_witness :
    ("boxcar" ≠ "hann" ∧ "boxcar" ≠ "hamming" ∧ "boxcar" ≠ "blackman" ∧
      ¬ ((0:ℝ) < 2 ∧ (2:ℝ) ≤ 1)) ∧
    mkDSPPipeline 8 "boxcar" 2 10 [] = .error .configError ∧
    configValidate 4 "hann" 2 100 1 = .error .configError :=
  ⟨⟨by decide, by decide, by decide, two_not_in_unit_interval⟩,
   (construction_validation_spec 8 "boxcar" 2 10 []).1
     (by decide) (by decide) (by decide),
   (construction_validation_spec 8 "boxcar" 2 10 []).2.1 two_not_in_unit_interval⟩

lemma mkDSPPipeline_pip2 : mkDSPPipeline 2 "hann" 1 0 [] = .ok pip2 := rfl

/-- C3 counterexample: a frame whose sample count (1) differs from the
configured FFT size (2) is not rejected — CuPy broadcasting stretches the
single sample across the window and the pipeline returns a FeatureRecord. -/
theorem frame_length_check_cex :
    ([(0:ℂ)] : List ℂ).length ≠ pip2.fft_size ∧
    ∃ r, pip2.process_frame ⟨0, 0, 0, 1, none, [0]⟩ = .ok r :=
  ⟨by decide, ⟨_, rfl⟩⟩

/-- C3 (amended): a frame whose sample count differs from the FFT size fails
per-call with a shape (broadcast) error — provided neither the sample count
nor the FFT size is 1, in which case broadcasting silently accepts the frame —
and the failing call returns no new state, so the EMA filter and fix buffer
are untouched for subsequent frames. -/
theorem frame_length_mismatch_spec (p : DSPPipeline) (frame : IQFrame)
    (hw : p.window.length = p.fft_size)
    (h1 : frame.iq.length ≠ p.fft_size)
    (h2 : frame.iq.length ≠ 1) (h3 : p.fft_size ≠ 1) :
    p.process_frame frame = .error .shapeError := by
  have hb : bcast2 (fun (z : ℂ) (w : ℝ) => z * (w : ℂ)) frame.iq p.window
      = none := by
    unfold bcast2
    rw [if_neg (by rw [hw]; exact h1)]
    rcases hx : frame.iq with _ | ⟨x0, _ | ⟨x1, xtl⟩⟩
    · rcases hww : p.window with _ | ⟨w0, _ | ⟨w1, wtl⟩⟩
      · rfl
      · exfalso
        apply h3
        rw [← hw, hww]
        rfl
      · rfl
    · exfalso
      apply h2
      rw [hx]
      rfl
    · rcases hww : p.window with _ | ⟨w0, _ | ⟨w1, wtl⟩⟩
      · rfl
      · exfalso
        apply h3
        rw [← hw, hww]
        rfl
      · rfl
  unfold DSPPipeline.process_frame compute_fft_psd
  rw [hb]
  rfl

/-- Witness for the amended C3: a three-sample frame against the two-bin
pipeline fails with a shape error. -/
theorem frame_length_mismatch_spec_witness :
    (pip2.window.length = pip2.fft_size ∧
      ([(0:ℂ), 0, 0] : List ℂ).length ≠ pip2.fft_size ∧
      ([(0:ℂ), 0, 0] : List ℂ).length ≠ 1 ∧ pip2.fft_size ≠ 1) ∧
    pip2.process_frame ⟨0, 0, 0, 1, none, [0, 0, 0]⟩ = .error .shapeError :=
  ⟨⟨by simp [pip2, hannWindow], by decide, by decide, by decide⟩,
   frame_length_mismatch_spec pip2 ⟨0, 0, 0, 1, none, [0, 0, 0]⟩
     (by simp [pip2, hannWindow]) (by decide) (by decide) (by decide)⟩

/-- C10: the noise floor stored in each FeatureRecord is the configured
percentile of the EMA-smoothed PSD, while each band's occupancy is computed
from the raw (unsmoothed) dB PSD against that floor plus the 6 dB threshold;
and the comparison is strict — bins exactly at `floor + 6` are not counted
(occupancy over bins all equal to `floor + 6` is zero). -/
theorem noise_floor_occupancy_inputs_spec (p : DSPPipeline) (frame : IQFrame) :
    ((p.process_frame frame).map
        (fun r => (r.1.noise_floor_db, r.1.occupancy_pct)) =
      (p.process_frame frame).map (fun r =>
        (estimate_noise_floor r.1.psd_smoothed_db p.noise_floor_percentile,
         p.bands.map (fun b =>
           compute_occupancy r.1.freq_bins_hz r.1.psd_db b frame.center_freq_hz
             (estimate_noise_floor r.1.psd_smoothed_db
               p.noise_floor_percentile) 6)))) ∧
    (∀ (bins : List ℝ) (band : Band) (cf nf : ℝ),
      compute_occupancy bins (List.replicate bins.length (nf + 6)) band cf nf 6
        = 0) := by
  constructor
  · cases hc : compute_fft_psd frame p.window p.window_power_correction with
    | none =>
      simp only [DSPPipeline.process_frame, hc]
      rfl
    | some v =>
      obtain ⟨bins, db, lin⟩ := v
      cases he : p.ema_filter.update db with
      | none =>
        simp only [DSPPipeline.process_frame, hc, he]
        rfl
      | some w =>
        obtain ⟨sm, ema'⟩ := w
        simp only [DSPPipeline.process_frame, hc, he]
        rfl
  · intro bins band cf nf
    rw [compute_occupancy_eq]
    have hall : ∀ v ∈ inBandPsd bins (List.replicate bins.length (nf + 6))
        band cf, v = nf + 6 := by
      intro v hv
      obtain ⟨q, hq, rfl⟩ := List.mem_map.mp hv
      have hz := List.of_mem_zip (List.mem_filter.mp hq).1
      exact List.eq_of_mem_replicate hz.2
    have hcount : (inBandPsd bins (List.replicate bins.length (nf + 6))
        band cf).countP (fun v => decide (nf + 6 < v)) = 0 := by
      rw [List.countP_eq_zero]
      intro v hv
      simp [hall v hv]
    by_cases h : (inBandPsd bins (List.replicate bins.length (nf + 6))
        band cf).length = 0
    · rw [if_pos h]
    · rw [if_neg h, hcount]
      simp

lemma aggregate_empty (agg : TileAggregator) (h : agg.frame_buffer = []) :
    agg.aggregate = .ok ([], agg) := by
  unfold TileAggregator.aggregate
  rw [if_pos (by rw [h]; rfl)]

lemma aggregate_ok_buffer (agg : TileAggregator) (ms : List TileMetrics)
    (agg' : TileAggregator) (h : agg.aggregate = .ok (ms, agg')) :
    agg'.frame_buffer = [] := by
  unfold TileAggregator.aggregate at h
  by_cases h0 : agg.frame_buffer.length = 0
  · rw [if_pos h0] at h
    simp only [Except.ok.injEq, Prod.mk.injEq] at h
    rw [← h.2]
    exact List.length_eq_zero.mp h0
  · rw [if_neg h0] at h
    by_cases h1 : ∃ i < agg.num_bands,
        ∀ r ∈ agg.frame_buffer, r.band_cols.length ≤ i
    · rw [if_pos h1] at h
      exact absurd h (by simp)
    · rw [if_neg h1] at h
      simp only [Except.ok.injEq, Prod.mk.injEq] at h
      rw [← h.2]

/-- C4: the row buffer is empty after any completed `aggregate`/`flush` call;
`flush` is literally `aggregate`; aggregating an empty buffer returns `[]`
and leaves the state unchanged; and a second `aggregate` immediately after a
successful one returns `[]`. -/
theorem aggregator_buffer_clearing_spec (agg : TileAggregator) :
    ((agg.aggregate).map (fun r => r.2.frame_buffer) =
      (agg.aggregate).map (fun _ => ([] : List AggRow))) ∧
    (agg.flush = agg.aggregate) ∧
    (agg.frame_buffer = [] → agg.aggregate = .ok ([], agg)) ∧
    (∀ ms agg', agg.aggregate = .ok (ms, agg') →
      agg'.aggregate = .ok ([], agg')) := by
  refine ⟨?_, rfl, aggregate_empty agg, ?_⟩
  · cases hr : agg.aggregate with
    | error e => rfl
    | ok v =>
      have hb := aggregate_ok_buffer agg v.1 v.2 (by rw [hr])
      simp [Except.map, hb]
  · intro ms agg' h
    exact aggregate_empty agg' (aggregate_ok_buffer agg ms agg' h)

/-- Witness for C4 at a concrete aggregator with an empty buffer. -/
theorem aggregator_buffer_clearing_spec_witness :
    (⟨mkTileGrid 0 0 100 100, 5, 1, []⟩ : TileAggregator).frame_buffer = [] ∧
    (⟨mkTileGrid 0 0 100 100, 5, 1, []⟩ : TileAggregator).aggregate =
      .ok ([], ⟨mkTileGrid 0 0 100 100, 5, 1, []⟩) :=
  ⟨rfl, (aggregator_buffer_clearing_spec
    ⟨mkTileGrid 0 0 100 100, 5, 1, []⟩).2.2.1 rfl⟩

lemma mkTileGrid_lat_min (a b t e : ℝ) :
    (mkTileGrid a b t e).lat_min = a - (e / 2) * (1 / 111000) := rfl

lemma mkTileGrid_lat_max (a b t e : ℝ) :
    (mkTileGrid a b t e).lat_max = a + (e / 2) * (1 / 111000) := rfl

lemma mkTileGrid_lon_min (a b t e : ℝ) :
    (mkTileGrid a b t e).lon_min =
      b - (e / 2) * (1 / (88000 * Real.cos (a * Real.pi / 180))) := rfl

lemma mkTileGrid_lon_max (a b t e : ℝ) :
    (mkTileGrid a b t e).lon_max =
      b + (e / 2) * (1 / (88000 * Real.cos (a * Real.pi / 180))) := rfl

lemma mkTileGrid_tile_size_lat (a b t e : ℝ) :
    (mkTileGrid a b t e).tile_size_lat = t * (1 / 111000) := rfl

lemma mkTileGrid_tile_size_lon (a b t e : ℝ) :
    (mkTileGrid a b t e).tile_size_lon =
      t * (1 / (88000 * Real.cos (a * Real.pi / 180))) := rfl

lemma mkTileGrid_num_tiles_x (a b t e : ℝ) :
    (mkTileGrid a b t e).num_tiles_x = ⌈e / t⌉ := rfl

lemma mkTileGrid_num_tiles_y (a b t e : ℝ) :
    (mkTileGrid a b t e).num_tiles_y = ⌈e / t⌉ := rfl

lemma mkTileGrid_tiles (a b t e : ℝ) :
    (mkTileGrid a b t e).tiles =
      generateTiles (a - (e / 2) * (1 / 111000))
        (b - (e / 2) * (1 / (88000 * Real.cos (a * Real.pi / 180))))
        (t * (1 / 111000)) (t * (1 / (88000 * Real.cos (a * Real.pi / 180))))
        (⌈e / t⌉).toNat (⌈e / t⌉).toNat := rfl

lemma pyInt_of_nonneg (x : ℝ) (h : 0 ≤ x) : pyInt x = ⌊x⌋ := if_pos h

lemma get_tile_in_bounds (g : TileGrid) (lat lon : ℝ)
    (h : g.lat_min ≤ lat ∧ lat ≤ g.lat_max ∧
      g.lon_min ≤ lon ∧ lon ≤ g.lon_max) :
    g.get_tile lat lon =
      (max 0 (min (pyInt ((lon - g.lon_min) / g.tile_size_lon))
         (g.num_tiles_x - 1)),
       max 0 (min (pyInt ((lat - g.lat_min) / g.tile_size_lat))
         (g.num_tiles_y - 1)),
       tileIdStr
         (max 0 (min (pyInt ((lon - g.lon_min) / g.tile_size_lon))
           (g.num_tiles_x - 1)))
         (max 0 (min (pyInt ((lat - g.lat_min) / g.tile_size_lat))
           (g.num_tiles_y - 1)))) := by
  unfold TileGrid.get_tile
  rw [if_neg (not_not_intro h)]

lemma get_tile_out_of_bounds (g : TileGrid) (lat lon : ℝ)
    (h : ¬ (g.lat_min ≤ lat ∧ lat ≤ g.lat_max ∧
      g.lon_min ≤ lon ∧ lon ≤ g.lon_max)) :
    g.get_tile lat lon = (-1, -1, "out_of_bounds") := by
  unfold TileGrid.get_tile
  rw [if_pos h]

lemma mem_generateTiles (lat0 lon0 tsl tslon : ℝ) (nx ny : ℕ) (ix iy : ℕ)
    (hx : ix < nx) (hy : iy < ny) :
    (⟨tileIdStr ix iy, ix, iy,
      lat0 + iy * tsl, lat0 + iy * tsl + tsl,
      lon0 + ix * tslon, lon0 + ix * tslon + tslon⟩ : Tile) ∈
      generateTiles lat0 lon0 tsl tslon nx ny := by
  unfold generateTiles
  rw [List.mem_flatMap]
  exact ⟨ix, List.mem_range.mpr hx,
    List.mem_map.mpr ⟨iy, List.mem_range.mpr hy, rfl⟩⟩

lemma pyInt_nat_add_half (n : ℕ) : pyInt ((n : ℝ) + 1 / 2) = n := by
  rw [pyInt_of_nonneg _ (by positivity)]
  rw [show ((n : ℝ) + 1 / 2) = ((n : ℤ) : ℝ) + 1 / 2 by push_cast; ring]
  rw [Int.floor_int_add]
  norm_num

lemma get_tile_midpoint (g : TileGrid) (ix iy : ℕ)
    (htsla : 0 < g.tile_size_lat) (htslo : 0 < g.tile_size_lon)
    (hx : (ix : ℤ) ≤ g.num_tiles_x - 1) (hy : (iy : ℤ) ≤ g.num_tiles_y - 1)
    (hlat : g.lat_min + ((iy : ℝ) + 1 / 2) * g.tile_size_lat ≤ g.lat_max)
    (hlon : g.lon_min + ((ix : ℝ) + 1 / 2) * g.tile_size_lon ≤ g.lon_max) :
    g.get_tile (g.lat_min + ((iy : ℝ) + 1 / 2) * g.tile_size_lat)
      (g.lon_min + ((ix : ℝ) + 1 / 2) * g.tile_size_lon) =
      ((ix : ℤ), (iy : ℤ), tileIdStr ix iy) := by
  have hnn_lat : (0:ℝ) ≤ ((iy : ℝ) + 1 / 2) * g.tile_size_lat := by positivity
  have hnn_lon : (0:ℝ) ≤ ((ix : ℝ) + 1 / 2) * g.tile_size_lon := by positivity
  rw [get_tile_in_bounds _ _ _
    ⟨by linarith, hlat, by linarith, hlon⟩]
  have hqlat : (g.lat_min + ((iy : ℝ) + 1 / 2) * g.tile_size_lat - g.lat_min) /
      g.tile_size_lat = (iy : ℝ) + 1 / 2 := by
    rw [show g.lat_min + ((iy : ℝ) + 1 / 2) * g.tile_size_lat - g.lat_min =
      ((iy : ℝ) + 1 / 2) * g.tile_size_lat from by ring]
    exact mul_div_cancel_right₀ _ htsla.ne'
  have hqlon : (g.lon_min + ((ix : ℝ) + 1 / 2) * g.tile_size_lon - g.lon_min) /
      g.tile_size_lon = (ix : ℝ) + 1 / 2 := by
    rw [show g.lon_min + ((ix : ℝ) + 1 / 2) * g.tile_size_lon - g.lon_min =
      ((ix : ℝ) + 1 / 2) * g.tile_size_lon from by ring]
    exact mul_div_cancel_right₀ _ htslo.ne'
  rw [hqlat, hqlon, pyInt_nat_add_half, pyInt_nat_add_half]
  rw [min_eq_left hx, min_eq_left hy]
  rw [max_eq_right (by positivity), max_eq_right (by positivity)]

/-- C7 (amended): the midpoint of a generated tile's bounds maps back to that
tile's indices and id *provided the midpoint lies within the grid bounds* —
which can fail for the top-edge tiles when `tile_size` does not divide
`grid_extent` (the tile count is `ceil(extent/tile_size)`, so those tiles
overhang the grid bounds); every in-bounds coordinate yields indices clamped
into `[0, n-1]` on each axis. -/
theorem tile_midpoint_locate_spec (a b t e : ℝ) (ix iy : ℕ) (g : TileGrid)
    (hg : g = mkTileGrid a b t e)
    (ht : 0 < t) (he : 0 < e)
    (hcos : 0 < Real.cos (a * Real.pi / 180))
    (hx : (ix : ℤ) < g.num_tiles_x) (hy : (iy : ℤ) < g.num_tiles_y)
    (hlat : (g.lat_min + (iy : ℝ) * g.tile_size_lat +
        (g.lat_min + (iy : ℝ) * g.tile_size_lat + g.tile_size_lat)) / 2 ≤
        g.lat_max)
    (hlon : (g.lon_min + (ix : ℝ) * g.tile_size_lon +
        (g.lon_min + (ix : ℝ) * g.tile_size_lon + g.tile_size_lon)) / 2 ≤
        g.lon_max) :
    ((⟨tileIdStr ix iy, ix, iy,
        g.lat_min + (iy : ℝ) * g.tile_size_lat,
        g.lat_min + (iy : ℝ) * g.tile_size_lat + g.tile_size_lat,
        g.lon_min + (ix : ℝ) * g.tile_size_lon,
        g.lon_min + (ix : ℝ) * g.tile_size_lon + g.tile_size_lon⟩ : Tile) ∈
      g.tiles) ∧
    g.get_tile
      ((g.lat_min + (iy : ℝ) * g.tile_size_lat +
        (g.lat_min + (iy : ℝ) * g.tile_size_lat + g.tile_size_lat)) / 2)
      ((g.lon_min + (ix : ℝ) * g.tile_size_lon +
        (g.lon_min + (ix : ℝ) * g.tile_size_lon + g.tile_size_lon)) / 2) =
      ((ix : ℤ), (iy : ℤ), tileIdStr ix iy) ∧
    (∀ lat lon, g.lat_min ≤ lat → lat ≤ g.lat_max →
      g.lon_min ≤ lon → lon ≤ g.lon_max →
      0 ≤ (g.get_tile lat lon).1 ∧
      (g.get_tile lat lon).1 ≤ g.num_tiles_x - 1 ∧
      0 ≤ (g.get_tile lat lon).2.1 ∧
      (g.get_tile lat lon).2.1 ≤ g.num_tiles_y - 1) := by
  have hcosne : (88000 : ℝ) * Real.cos (a * Real.pi / 180) ≠ 0 := by positivity
  have htsla : 0 < g.tile_size_lat := by
    rw [hg, mkTileGrid_tile_size_lat]
    positivity
  have htslo : 0 < g.tile_size_lon := by
    rw [hg, mkTileGrid_tile_size_lon]
    positivity
  have hn1 : 1 ≤ g.num_tiles_x := by
    rw [hg, mkTileGrid_num_tiles_x]
    exact Int.ceil_pos.mpr (by positivity)
  have hn1y : 1 ≤ g.num_tiles_y := by
    rw [hg, mkTileGrid_num_tiles_y]
    exact Int.ceil_pos.mpr (by positivity)
  refine ⟨?_, ?_, ?_⟩
  · rw [hg, mkTileGrid_tiles]
    have hx' : ix < (⌈e / t⌉ : ℤ).toNat := by
      rw [hg, mkTileGrid_num_tiles_x] at hx
      omega
    have hy' : iy < (⌈e / t⌉ : ℤ).toNat := by
      rw [hg, mkTileGrid_num_tiles_y] at hy
      omega
    have hmem := mem_generateTiles (a - (e / 2) * (1 / 111000))
      (b - (e / 2) * (1 / (88000 * Real.cos (a * Real.pi / 180))))
      (t * (1 / 111000)) (t * (1 / (88000 * Real.cos (a * Real.pi / 180))))
      (⌈e / t⌉ : ℤ).toNat (⌈e / t⌉ : ℤ).toNat ix iy hx' hy'
    exact hmem
  · have e1 : (g.lat_min + (iy : ℝ) * g.tile_size_lat +
        (g.lat_min + (iy : ℝ) * g.tile_size_lat + g.tile_size_lat)) / 2 =
        g.lat_min + ((iy : ℝ) + 1 / 2) * g.tile_size_lat := by ring
    have e2 : (g.lon_min + (ix : ℝ) * g.tile_size_lon +
        (g.lon_min + (ix : ℝ) * g.tile_size_lon + g.tile_size_lon)) / 2 =
        g.lon_min + ((ix : ℝ) + 1 / 2) * g.tile_size_lon := by ring
    rw [e1] at hlat
    rw [e2] at hlon
    rw [e1, e2]
    exact get_tile_midpoint g ix iy htsla htslo (by omega) (by omega) hlat hlon
  · intro lat lon h1 h2 h3 h4
    rw [get_tile_in_bounds _ _ _ ⟨h1, h2, h3, h4⟩]
    refine ⟨le_max_left _ _, ?_, le_max_left _ _, ?_⟩
    · exact max_le (by omega) (min_le_right _ _)
    · exact max_le (by omega) (min_le_right _ _)

lemma c7pos_t : (0:ℝ) < 100 := by norm_num

lemma c7pos_e : (0:ℝ) < 1000 := by norm_num

lemma c7cos : 0 < Real.cos (0 * Real.pi / 180) := by simp

lemma c7hx : ((3:ℕ) : ℤ) < (mkTileGrid 0 0 100 1000).num_tiles_x := by
  rw [mkTileGrid_num_tiles_x]
  norm_num

lemma c7hy : ((4:ℕ) : ℤ) < (mkTileGrid 0 0 100 1000).num_tiles_y := by
  rw [mkTileGrid_num_tiles_y]
  norm_num

lemma c7hlat : ((mkTileGrid 0 0 100 1000).lat_min +
    ((4:ℕ) : ℝ) * (mkTileGrid 0 0 100 1000).tile_size_lat +
    ((mkTileGrid 0 0 100 1000).lat_min +
      ((4:ℕ) : ℝ) * (mkTileGrid 0 0 100 1000).tile_size_lat +
      (mkTileGrid 0 0 100 1000).tile_size_lat)) / 2 ≤
    (mkTileGrid 0 0 100 1000).lat_max := by
  rw [mkTileGrid_lat_min, mkTileGrid_tile_size_lat, mkTileGrid_lat_max]
  norm_num

lemma c7hlon : ((mkTileGrid 0 0 100 1000).lon_min +
    ((3:ℕ) : ℝ) * (mkTileGrid 0 0 100 1000).tile_size_lon +
    ((mkTileGrid 0 0 100 1000).lon_min +
      ((3:ℕ) : ℝ) * (mkTileGrid 0 0 100 1000).tile_size_lon +
      (mkTileGrid 0 0 100 1000).tile_size_lon)) / 2 ≤
    (mkTileGrid 0 0 100 1000).lon_max := by
  rw [mkTileGrid_lon_min, mkTileGrid_tile_size_lon, mkTileGrid_lon_max]
  simp only [zero_mul, zero_div, Real.cos_zero]
  norm_num

/-- Witness for the amended C7: in a 100 m / 1000 m grid at the origin, the
midpoint of tile (3,4) locates back to (3,4). -/
theorem tile_midpoint_locate_spec_witness :
    (mkTileGrid 0 0 100 1000).get_tile
      (((mkTileGrid 0 0 100 1000).lat_min +
        ((4:ℕ) : ℝ) * (mkTileGrid 0 0 100 1000).tile_size_lat +
        ((mkTileGrid 0 0 100 1000).lat_min +
          ((4:ℕ) : ℝ) * (mkTileGrid 0 0 100 1000).tile_size_lat +
          (mkTileGrid 0 0 100 1000).tile_size_lat)) / 2)
      (((mkTileGrid 0 0 100 1000).lon_min +
        ((3:ℕ) : ℝ) * (mkTileGrid 0 0 100 1000).tile_size_lon +
        ((mkTileGrid 0 0 100 1000).lon_min +
          ((3:ℕ) : ℝ) * (mkTileGrid 0 0 100 1000).tile_size_lon +
          (mkTileGrid 0 0 100 1000).tile_size_lon)) / 2) =
      (((3:ℕ) : ℤ), ((4:ℕ) : ℤ), tileIdStr 3 4) :=
  (tile_midpoint_locate_spec 0 0 100 1000 3 4 (mkTileGrid 0 0 100 1000) rfl
    c7pos_t c7pos_e c7cos c7hx c7hy c7hlat c7hlon).2.1

/-- C7 counterexample: with `tile_size=300, extent=1000` the grid has
`ceil(1000/300)=4` tiles per axis covering 1200 m, so tile (3,3) overhangs the
grid bounds; the midpoint of its bounds is out of bounds and `locate` returns
the sentinel, not tile (3,3). -/
theorem tile_midpoint_locate_cex :
    ∃ tl ∈ (mkTileGrid 0 0 300 1000).tiles,
      tl.tile_x = 3 ∧ tl.tile_y = 3 ∧
      (mkTileGrid 0 0 300 1000).get_tile ((tl.lat_min + tl.lat_max) / 2)
        ((tl.lon_min + tl.lon_max) / 2) = (-1, -1, "out_of_bounds") := by
  have hceil : (⌈(1000:ℝ)/300⌉ : ℤ) = 4 := by
    rw [Int.ceil_eq_iff]
    norm_num
  refine ⟨⟨tileIdStr 3 3, ((3:ℕ) : ℤ), ((3:ℕ) : ℤ),
    0 - (1000 / 2) * (1 / 111000) + ((3:ℕ) : ℝ) * (300 * (1 / 111000)),
    0 - (1000 / 2) * (1 / 111000) + ((3:ℕ) : ℝ) * (300 * (1 / 111000)) +
      300 * (1 / 111000),
    0 - (1000 / 2) * (1 / (88000 * Real.cos (0 * Real.pi / 180))) +
      ((3:ℕ) : ℝ) * (300 * (1 / (88000 * Real.cos (0 * Real.pi / 180)))),
    0 - (1000 / 2) * (1 / (88000 * Real.cos (0 * Real.pi / 180))) +
      ((3:ℕ) : ℝ) * (300 * (1 / (88000 * Real.cos (0 * Real.pi / 180)))) +
      300 * (1 / (88000 * Real.cos (0 * Real.pi / 180)))⟩, ?_, rfl, rfl, ?_⟩
  · rw [mkTileGrid_tiles]
    exact mem_generateTiles _ _ _ _ _ _ 3 3
      (by rw [hceil]; decide) (by rw [hceil]; decide)
  · apply get_tile_out_of_bounds
    rintro ⟨h1, h2, h3, h4⟩
    rw [mkTileGrid_lat_max] at h2
    push_cast at h2
    norm_num at h2

/-- C8: the grid centered at (37, -122) with 100 m tiles over a 1000 m extent
has 10×10 tiles, and locating the grid's own center returns tile (5,5). -/
theorem grid_scenario_b_spec :
    (mkTileGrid 37 (-122) 100 1000).num_tiles_x = 10 ∧
    (mkTileGrid 37 (-122) 100 1000).num_tiles_y = 10 ∧
    (mkTileGrid 37 (-122) 100 1000).get_tile 37 (-122) =
      (5, 5, "tile_x5_y5") := by
  have hceil : (⌈(1000:ℝ)/100⌉ : ℤ) = 10 := by norm_num
  have hcos : 0 < Real.cos (37 * Real.pi / 180) := by
    apply Real.cos_pos_of_mem_Ioo
    constructor
    · have := Real.pi_pos
      linarith
    · have := Real.pi_pos
      linarith
  have hK : 0 < 1 / (88000 * Real.cos (37 * Real.pi / 180)) := by positivity
  refine ⟨by rw [mkTileGrid_num_tiles_x, hceil],
    by rw [mkTileGrid_num_tiles_y, hceil], ?_⟩
  rw [get_tile_in_bounds _ _ _ ?_]
  · rw [mkTileGrid_lat_min, mkTileGrid_lon_min, mkTileGrid_tile_size_lat,
      mkTileGrid_tile_size_lon, mkTileGrid_num_tiles_x, mkTileGrid_num_tiles_y,
      hceil]
    have hqlat : ((37:ℝ) - (37 - (1000 / 2) * (1 / 111000))) /
        (100 * (1 / 111000)) = 5 := by norm_num
    have hqlon : ((-122:ℝ) - (-122 - (1000 / 2) *
        (1 / (88000 * Real.cos (37 * Real.pi / 180))))) /
        (100 * (1 / (88000 * Real.cos (37 * Real.pi / 180)))) = 5 := by
      rw [show (-122:ℝ) - (-122 - (1000 / 2) *
          (1 / (88000 * Real.cos (37 * Real.pi / 180)))) =
          5 * (100 * (1 / (88000 * Real.cos (37 * Real.pi / 180))))
          from by ring]
      exact mul_div_cancel_right₀ 5 (by positivity)
    rw [hqlat, hqlon, pyInt_of_nonneg _ (by norm_num)]
    norm_num
    decide
  · refine ⟨?_, ?_, ?_, ?_⟩
    · rw [mkTileGrid_lat_min]
      norm_num
    · rw [mkTileGrid_lat_max]
      norm_num
    · rw [mkTileGrid_lon_min]
      nlinarith [hK]
    · rw [mkTileGrid_lon_max]
      nlinarith [hK]

/-- C5 (amended): a record whose zipped band columns are shorter than the
configured band count makes `aggregate` fail (the missing column is a cuDF
`KeyError`); `add_frame` itself never fails — it appends (or skips) without
length checking; and summaries always carry exactly `num_bands` entries, so
longer band arrays are silently truncated rather than rejected. -/
theorem aggregator_band_length_spec (agg : TileAggregator) :
    (agg.frame_buffer ≠ [] →
      (∃ i < agg.num_bands, ∀ r ∈ agg.frame_buffer, r.band_cols.length ≤ i) →
      agg.aggregate = .error .shapeError) ∧
    (∀ ms agg', agg.aggregate = .ok (ms, agg') →
      ∀ m ∈ ms, m.bandpower_mean_db.length = agg.num_bands ∧
        m.bandpower_max_db.length = agg.num_bands ∧
        m.occupancy_mean_pct.length = agg.num_bands) ∧
    (∀ f, (agg.add_frame f) = agg ∨
      ∃ row, (agg.add_frame f).frame_buffer = agg.frame_buffer ++ [row]) := by
  refine ⟨?_, ?_, ?_⟩
  · intro hne hex
    unfold TileAggregator.aggregate
    rw [if_neg (by simpa using hne), if_pos hex]
  · intro ms agg' h m hm
    unfold TileAggregator.aggregate at h
    by_cases h0 : agg.frame_buffer.length = 0
    · rw [if_pos h0] at h
      simp only [Except.ok.injEq, Prod.mk.injEq] at h
      rw [← h.1] at hm
      simp at hm
    · rw [if_neg h0] at h
      by_cases h1 : ∃ i < agg.num_bands,
          ∀ r ∈ agg.frame_buffer, r.band_cols.length ≤ i
      · rw [if_pos h1] at h
        exact absurd h (by simp)
      · rw [if_neg h1] at h
        simp only [Except.ok.injEq, Prod.mk.injEq] at h
        rw [← h.1] at hm
        obtain ⟨tid, htid, hmm⟩ := List.mem_filterMap.mp hm
        cases hf : agg.tile_grid.tiles.find? (fun t => t.tile_id == tid) with
        | none =>
          rw [hf] at hmm
          exact absurd hmm (by simp)
        | some tile =>
          rw [hf] at hmm
          simp only [Option.some.injEq] at hmm
          rw [← hmm]
          refine ⟨by simp, by simp, by simp⟩
  · intro f
    obtain ⟨fid, ts, la, lo, bins, db, sm, nf, bp, occ, an⟩ := f
    cases la with
    | none => exact Or.inl rfl
    | some lat =>
      cases lo with
      | none => exact Or.inl rfl
      | some lon =>
        unfold TileAggregator.add_frame
        dsimp only
        by_cases hoob :
            (agg.tile_grid.get_tile lat lon).2.2 = "out_of_bounds"
        · rw [if_pos hoob]
          exact Or.inl rfl
        · rw [if_neg hoob]
          exact Or.inr ⟨_, rfl⟩

lemma rowless_shortfall :
    ∃ i < (⟨mkTileGrid 0 0 100 100, 5, 1,
        [⟨0, 0, 0, 0, "tile_x0_y0", 0, 0, 0, [], none⟩]⟩ :
        TileAggregator).num_bands,
      ∀ r ∈ (⟨mkTileGrid 0 0 100 100, 5, 1,
        [⟨0, 0, 0, 0, "tile_x0_y0", 0, 0, 0, [], none⟩]⟩ :
        TileAggregator).frame_buffer, r.band_cols.length ≤ i := by
  refine ⟨0, by norm_num, ?_⟩
  intro r hr
  simp only [List.mem_singleton] at hr
  rw [hr]
  rfl

lemma rowless_buffer_ne :
    (⟨mkTileGrid 0 0 100 100, 5, 1,
      [⟨0, 0, 0, 0, "tile_x0_y0", 0, 0, 0, [], none⟩]⟩ :
      TileAggregator).frame_buffer ≠ [] := by
  simp

/-- Witness for the amended C5: one buffered row with an empty band-column
list against `num_bands = 1` makes aggregation fail. -/
theorem aggregator_band_length_spec_witness :
    ((⟨mkTileGrid 0 0 100 100, 5, 1,
        [⟨0, 0, 0, 0, "tile_x0_y0", 0, 0, 0, [], none⟩]⟩ :
        TileAggregator).frame_buffer ≠ [] ∧
      ∃ i < (1 : ℕ),
        ∀ r ∈ [(⟨0, 0, 0, 0, "tile_x0_y0", 0, 0, 0, [], none⟩ : AggRow)],
          r.band_cols.length ≤ i) ∧
    (⟨mkTileGrid 0 0 100 100, 5, 1,
      [⟨0, 0, 0, 0, "tile_x0_y0", 0, 0, 0, [], none⟩]⟩ :
      TileAggregator).aggregate = .error .shapeError :=
  ⟨⟨rowless_buffer_ne, rowless_shortfall⟩,
   (aggregator_band_length_spec _).1 rowless_buffer_ne rowless_shortfall⟩

lemma gridOne_get_tile_center : gridOne.get_tile 0 0 = (0, 0, tileIdStr 0 0) := by
  have hK : (0:ℝ) < 1 / (88000 * Real.cos (0 * Real.pi / 180)) := by
    have := c7cos
    positivity
  have htsla : 0 < gridOne.tile_size_lat := by
    unfold gridOne
    rw [mkTileGrid_tile_size_lat]
    norm_num
  have htslo : 0 < gridOne.tile_size_lon := by
    unfold gridOne
    rw [mkTileGrid_tile_size_lon]
    nlinarith [hK]
  have hceil : (⌈(100:ℝ)/100⌉ : ℤ) = 1 := by norm_num
  have hx0 : ((0:ℕ) : ℤ) ≤ gridOne.num_tiles_x - 1 := by
    unfold gridOne
    rw [mkTileGrid_num_tiles_x, hceil]
    norm_num
  have hy0 : ((0:ℕ) : ℤ) ≤ gridOne.num_tiles_y - 1 := by
    unfold gridOne
    rw [mkTileGrid_num_tiles_y, hceil]
    norm_num
  have hlat0 : gridOne.lat_min + (((0:ℕ) : ℝ) + 1 / 2) * gridOne.tile_size_lat ≤
      gridOne.lat_max := by
    unfold gridOne
    rw [mkTileGrid_lat_min, mkTileGrid_tile_size_lat, mkTileGrid_lat_max]
    push_cast
    norm_num
  have hlon0 : gridOne.lon_min + (((0:ℕ) : ℝ) + 1 / 2) * gridOne.tile_size_lon ≤
      gridOne.lon_max := by
    unfold gridOne
    rw [mkTileGrid_lon_min, mkTileGrid_tile_size_lon, mkTileGrid_lon_max]
    push_cast
    nlinarith [hK]
  have hmid := get_tile_midpoint gridOne 0 0 htsla htslo hx0 hy0 hlat0 hlon0
  have hlz : gridOne.lat_min + (((0:ℕ) : ℝ) + 1 / 2) * gridOne.tile_size_lat = 0 := by
    unfold gridOne
    rw [mkTileGrid_lat_min, mkTileGrid_tile_size_lat]
    push_cast
    ring_nf
  have hoz : gridOne.lon_min + (((0:ℕ) : ℝ) + 1 / 2) * gridOne.tile_size_lon = 0 := by
    unfold gridOne
    rw [mkTileGrid_lon_min, mkTileGrid_tile_size_lon]
    push_cast
    ring_nf
  rw [hlz, hoz] at hmid
  exact hmid

lemma add_frame_ftrTwoBands :
    aggOne.add_frame ftrTwoBands = { aggOne with frame_buffer := [rowTwoBands] } := by
  unfold TileAggregator.add_frame ftrTwoBands aggOne
  dsimp only
  rw [gridOne_get_tile_center]
  rw [if_neg (by decide)]
  rfl

lemma gridOne_tiles :
    gridOne.tiles = generateTiles (0 - (100 / 2) * (1 / 111000))
      (0 - (100 / 2) * (1 / (88000 * Real.cos (0 * Real.pi / 180))))
      (100 * (1 / 111000)) (100 * (1 / (88000 * Real.cos (0 * Real.pi / 180))))
      1 1 := by
  have hceil : (⌈(100:ℝ)/100⌉ : ℤ) = 1 := by norm_num
  have h1 : ((⌈(100:ℝ)/100⌉ : ℤ)).toNat = 1 := by
    rw [hceil]
    rfl
  unfold gridOne
  rw [mkTileGrid_tiles, h1]

/-- C5 counterexample: `aggOne` is configured for one band, the record carries
two; `add_frame` accepts it and `aggregate` succeeds, emitting a summary with
exactly one band entry — the second band is silently dropped, no error is
raised. -/
theorem band_length_truncation_cex :
    ftrTwoBands.bandpower_db.length = 2 ∧
    ftrTwoBands.occupancy_pct.length = 2 ∧
    aggOne.num_bands = 1 ∧
    ∃ ms agg', (aggOne.add_frame ftrTwoBands).aggregate = .ok (ms, agg') ∧
      ms.map (fun m => (m.bandpower_mean_db.length, m.bandpower_max_db.length,
        m.occupancy_mean_pct.length)) = [(1, 1, 1)] := by
  refine ⟨rfl, rfl, rfl, ?_⟩
  rw [add_frame_ftrTwoBands]
  refine ⟨_, _, rfl, ?_⟩
  show ((((([rowTwoBands].map (fun r => r.tile_id)).dedup)).filterMap
    (fun tid =>
      (match gridOne.tiles.find? (fun t => t.tile_id == tid) with
      | none => none
      | some tile =>
        let grp := [rowTwoBands].filter (fun r => r.tile_id == tid)
        some {
          tile_id := tid
          tile_x := ((grp.map (fun r => r.tile_x)).headI)
          tile_y := ((grp.map (fun r => r.tile_y)).headI)
          lat_min := tile.lat_min
          lat_max := tile.lat_max
          lon_min := tile.lon_min
          lon_max := tile.lon_max
          frame_count := grp.length
          timestamp_min_ns := ((grp.map (fun r => r.timestamp_ns)).min?).getD 0
          timestamp_max_ns := ((grp.map (fun r => r.timestamp_ns)).max?).getD 0
          bandpower_mean_db := (List.range 1).map (fun i =>
            listMean (grp.filterMap (fun r => (r.band_cols.get? i).map Prod.fst)))
          bandpower_max_db := (List.range 1).map (fun i =>
            (((grp.filterMap (fun r =>
              (r.band_cols.get? i).map Prod.fst)).max?).getD 0))
          occupancy_mean_pct := (List.range 1).map (fun i =>
            listMean (grp.filterMap (fun r => (r.band_cols.get? i).map Prod.snd)))
          anomaly_score_max := (grp.filterMap (fun r => r.anomaly_score)).max? }
        : Option TileMetrics))).map
      (fun (m : TileMetrics) => (m.bandpower_mean_db.length,
        m.bandpower_max_db.length, m.occupancy_mean_pct.length))) = [(1, 1, 1)]
  cases hf : gridOne.tiles.find? (fun t => t.tile_id == tileIdStr 0 0) with
  | none =>
    rw [gridOne_tiles] at hf
    exact absurd hf (by simp [generateTiles])
  | some tile =>
    have hkeys : (([rowTwoBands].map (fun r => r.tile_id)).dedup) =
        [tileIdStr 0 0] := rfl
    rw [hkeys]
    simp only [List.filterMap_cons, List.filterMap_nil, hf]
    simp

end RFObs
